import Mathlib

/- Shallow embedding of the Midnight Mile voice stack:
   the voice queue (src/src/services/voiceQueue.ts) and the
   VoiceAssistantService sources (src/unnamed/part_000 and
   src/unnamed/part_001, two revisions of the same service).
   Asynchronous methods are embedded as explicit state-passing
   functions; the points where each model cuts an await boundary
   are recorded in the doc comments. -/

/-- The three voice job types of voiceQueue.ts. -/
inductive VoiceType where
  | conversation
  | navigation
  | safetyCheck
deriving DecidableEq, Repr

/-- getPriority (voiceQueue.ts lines 260-273): safety-check = 1 (highest),
navigation = 2, conversation = 3 (lowest; also the default arm). -/
def getPriority : VoiceType → Nat
  | .safetyCheck => 1
  | .navigation => 2
  | .conversation => 3

/-- A queued voice job (voiceQueue.ts lines 4-12); the id, timestamp and the
promise callbacks are dropped here, the text, type and priority kept. -/
structure VoiceJob where
  text : String
  jtype : VoiceType
  priority : Nat
deriving DecidableEq, Repr

/-- Insert a job behind every job of lower-or-equal priority number: one step
of a stable sort by ascending priority, matching the ES2019+ stable
`Array.prototype.sort((a, b) => a.priority - b.priority)` of
voiceQueue.ts line 53. -/
def insertByPriority (j : VoiceJob) : List VoiceJob → List VoiceJob
  | [] => [j]
  | h :: t => if h.priority ≤ j.priority then h :: insertByPriority j t else j :: h :: t

/-- Stable sort by ascending priority (voiceQueue.ts line 53). -/
def sortByPriority (l : List VoiceJob) : List VoiceJob :=
  l.foldl (fun acc j => insertByPriority j acc) []

/-- The queue state of VoiceQueueService (voiceQueue.ts lines 20-22), plus a
trace `played` of the jobs the drain loop has taken, in play order. -/
structure VoiceQueueState where
  queue : List VoiceJob
  isProcessing : Bool
  played : List VoiceJob
deriving DecidableEq, Repr

/-- The synchronous prefix of processQueue (voiceQueue.ts lines 68-86): the
re-entrancy/empty guard, `isProcessing = true`, and the first
`this.queue.shift()` of the drain loop; that shifted job is in flight (its
`await this.executeVoiceJob(job)` suspends) before control returns to the
caller of queueVoice, so it is appended to the play trace here. -/
def processQueueStart (s : VoiceQueueState) : VoiceQueueState :=
  if s.isProcessing then s
  else
    match s.queue with
    | [] => s
    | j :: rest => { queue := rest, isProcessing := true, played := s.played ++ [j] }

/-- queueVoice (voiceQueue.ts lines 36-63): build the job with getPriority,
push it, stable-sort the queue by priority, and when not already processing
call processQueue synchronously (its prefix up to the first await runs
before queueVoice returns). -/
def queueVoice (s : VoiceQueueState) (text : String) (jtype : VoiceType) : VoiceQueueState :=
  let job : VoiceJob := { text := text, jtype := jtype, priority := getPriority jtype }
  processQueueStart { s with queue := sortByPriority (s.queue ++ [job]) }

/-- The rest of the drain loop of processQueue (voiceQueue.ts lines 76-100)
once the in-flight job finishes: each iteration shifts the head of the queue
and plays it, so with no further enqueues the remaining jobs play in queue
order; finally `isProcessing = false`. -/
def drainRest (s : VoiceQueueState) : VoiceQueueState :=
  if s.isProcessing then
    { queue := [], isProcessing := false, played := s.played ++ s.queue }
  else s

/-- An idle VoiceQueueService: empty queue, not processing. -/
def idleVoiceQueue : VoiceQueueState :=
  { queue := [], isProcessing := false, played := [] }

/-- A busy VoiceQueueService: drain running (a job in flight), queue empty. -/
def busyVoiceQueue : VoiceQueueState :=
  { queue := [], isProcessing := true, played := [] }

/-- The claim C2 scenario: enqueue conversation, then safety-check, then
navigation on an idle queue, then let the drain run to completion. -/
def enqueueThreeThenDrain (start : VoiceQueueState) : VoiceQueueState :=
  drainRest (queueVoice (queueVoice (queueVoice start "ai response" .conversation)
    "safety check" .safetyCheck) "turn left" .navigation)

/-- The job types of a queue trace, in play order. -/
def playOrder (s : VoiceQueueState) : List VoiceType :=
  s.played.map (·.jtype)

/-- Settlement state of a voice job's promise (the resolve/reject pair stored
on the job, voiceQueue.ts lines 10-11, 40-49). -/
inductive JobOutcome where
  | pending
  | resolved
  | rejected (msg : String)
deriving DecidableEq, Repr

/-- The error message of clearQueue's rejections (voiceQueue.ts line 250). -/
def queueClearedMsg : String := "Voice queue cleared"

/-- VoiceQueueService viewed through its promise ledger: the ids of the jobs
still sitting in `this.queue`, the id of the job the drain loop has shifted
out and is awaiting (the local `job` of processQueue, whose promise is settled
only by executeVoiceJob), whether `this.currentAudio` is playing, and each
job id's settlement. -/
structure VoiceQueuePromises where
  pendingIds : List Nat
  currentId : Option Nat
  audioPlaying : Bool
  settle : Nat → JobOutcome

/-- stopCurrentAudio (voiceQueue.ts lines 229-240): pause the current audio
element, rewind it and drop the reference, and cancel browser speech
synthesis. Pausing fires neither the `ended` nor the `error` event of the
element, so no promise handler registered in textToSpeechElevenLabs
(lines 166-185) runs: no job settlement changes. -/
def stopCurrentAudio (s : VoiceQueuePromises) : VoiceQueuePromises :=
  { s with audioPlaying := false }

/-- clearQueue (voiceQueue.ts lines 245-255): reject every job still in
`this.queue` with the queue-cleared error, empty the queue, and stop the
current audio. The job the drain loop already shifted out is not in
`this.queue` and is not touched. -/
def clearQueue (s : VoiceQueuePromises) : VoiceQueuePromises :=
  stopCurrentAudio
    { s with
      pendingIds := []
      settle := fun i =>
        if i ∈ s.pendingIds then JobOutcome.rejected queueClearedMsg else s.settle i }

/-- The claim C3 scenario: job 0 shifted out and playing, jobs 1, 2, 3 still
pending in the queue, nothing settled yet. -/
def clearScenario : VoiceQueuePromises :=
  { pendingIds := [1, 2, 3]
    currentId := some 0
    audioPlaying := true
    settle := fun _ => JobOutcome.pending }

/-- The safety-check scheduler slice of VoiceAssistantService state, shared by
the part_000 and part_001 revisions: the listening/processing flags, what
`this.voiceQueue.isSpeaking()` currently returns, whether
`this.safetyCheckTimeout` is set, and `this.lastActivityTime`. -/
structure SafetySchedulerState where
  isListening : Bool
  isProcessing : Bool
  speaking : Bool
  timerArmed : Bool
  lastActivityTime : Nat
deriving DecidableEq, Repr

/-- SAFETY_CHECK_INTERVAL (10 seconds, both revisions). -/
def SAFETY_CHECK_INTERVAL : Nat := 10000

/-- startSafetyCheck of src/unnamed/part_000 (lines 372-398): clear any
pending timer, then return without arming when not listening or currently
processing; otherwise arm the timer for a full interval. -/
def startSafetyCheckP0 (s : SafetySchedulerState) : SafetySchedulerState :=
  let s := { s with timerArmed := false }
  if !s.isListening || s.isProcessing then s else { s with timerArmed := true }

/-- startSafetyCheck of src/unnamed/part_001 (lines 387-411): clear any
pending timer, then arm it whenever listening (regardless of processing). -/
def startSafetyCheckP1 (s : SafetySchedulerState) : SafetySchedulerState :=
  let s := { s with timerArmed := false }
  if !s.isListening then s else { s with timerArmed := true }

/-- Result of one timer firing: the state after the synchronous part of
performSafetyCheck, and whether a safety-check voice job was enqueued. -/
structure SafetyCheckResult where
  state : SafetySchedulerState
  enqueuedSafetyCheck : Bool
deriving DecidableEq, Repr

/-- performSafetyCheck of src/unnamed/part_000 (lines 403-468): the timeout
reference is cleared; while processing or speaking the check is skipped and
startSafetyCheck is called to reschedule; when no longer listening it stops;
when the idle interval has elapsed it sets isProcessing, enqueues the
safety-check job and updates lastActivityTime (the deferred continuation that
clears isProcessing and re-arms after the speech completes is not part of
this synchronous step); otherwise it reschedules. -/
def performSafetyCheckP0 (s : SafetySchedulerState) (now : Nat) : SafetyCheckResult :=
  let s := { s with timerArmed := false }
  if s.isProcessing || s.speaking then ⟨startSafetyCheckP0 s, false⟩
  else if !s.isListening then ⟨s, false⟩
  else if SAFETY_CHECK_INTERVAL ≤ now - s.lastActivityTime then
    ⟨{ s with isProcessing := true, lastActivityTime := now }, true⟩
  else ⟨startSafetyCheckP0 s, false⟩

/-- performSafetyCheck of src/unnamed/part_001 (lines 416-478): as in
part_000 but with the processing/speaking guard removed — the check is
queued "regardless of current speaking status" (comment at lines 422-423);
only the listening flag and the elapsed idle time are consulted. -/
def performSafetyCheckP1 (s : SafetySchedulerState) (now : Nat) : SafetyCheckResult :=
  let s := { s with timerArmed := false }
  if !s.isListening then ⟨s, false⟩
  else if SAFETY_CHECK_INTERVAL ≤ now - s.lastActivityTime then
    ⟨{ s with isProcessing := true, lastActivityTime := now }, true⟩
  else ⟨startSafetyCheckP1 s, false⟩

/-- A state where the timer fires while the queue is speaking: listening,
not processing, audio playing, idle since time 0. -/
def firesWhileSpeaking : SafetySchedulerState :=
  { isListening := true, isProcessing := false, speaking := true,
    timerArmed := true, lastActivityTime := 0 }

/-- A state where the timer fires while a response is being processed. -/
def firesWhileProcessing : SafetySchedulerState :=
  { isListening := true, isProcessing := true, speaking := false,
    timerArmed := true, lastActivityTime := 0 }

/-- The outcome of the Gemini call inside processTranscript
(src/unnamed/part_001): getGeminiResponse resolves to a text, resolves to
null (it catches its own fetch errors and returns null, lines 733-770), or
some other step of the body throws. -/
inductive GeminiOutcome where
  | success (resp : String)
  | nullResponse
  | throws
deriving DecidableEq, Repr

/-- The slice of VoiceAssistantService state processTranscript touches
(src/unnamed/part_001 lines 92-105). -/
structure AssistantState where
  isProcessing : Bool
  isListening : Bool
  isRecognitionActive : Bool
  safetyTimerArmed : Bool
deriving DecidableEq, Repr

/-- Counters of the externally visible calls one processTranscript run makes:
how often it calls restartListening, how often it calls startSafetyCheck, and
whether it called recognition.stop(). -/
structure TranscriptTrace where
  restartCalls : Nat
  safetyCheckCalls : Nat
  recognitionStops : Nat
deriving DecidableEq, Repr

/-- startSafetyCheck of part_001 acting on the AssistantState slice
(lines 387-411): clear the timer, re-arm it iff listening. -/
def startSafetyCheckArm (s : AssistantState) : AssistantState :=
  let s := { s with safetyTimerArmed := false }
  if s.isListening then { s with safetyTimerArmed := true } else s

/-- processTranscript (src/unnamed/part_001 lines 641-728), one run with the
branch selected by `handled` (did handleSpecialCommands return true) and `g`
(the Gemini outcome). Awaits are flattened into sequential steps: in the
success branch the reset and restart run after waitForSpeechToComplete, in
the throws branch after a 1-second timeout; the trace records the calls made
by the time the branch's exit sequence has run. Entry: when already
processing the transcript is dropped unchanged; otherwise isProcessing is
set and the safety timer cleared. Handled: reset isProcessing and, when
listening, call restartListening and startSafetyCheck. Otherwise recognition
is stopped when active, then: null response resets isProcessing and calls
startSafetyCheck only; success and throws reset isProcessing and, when
listening, call restartListening and startSafetyCheck. -/
def processTranscript (s : AssistantState) (handled : Bool) (g : GeminiOutcome) :
    AssistantState × TranscriptTrace :=
  if s.isProcessing then (s, ⟨0, 0, 0⟩)
  else
    let s := { s with isProcessing := true, safetyTimerArmed := false }
    if handled then
      let s := { s with isProcessing := false }
      if s.isListening then (startSafetyCheckArm s, ⟨1, 1, 0⟩) else (s, ⟨0, 0, 0⟩)
    else
      let stops : Nat := if s.isRecognitionActive then 1 else 0
      match g with
      | .nullResponse =>
          (startSafetyCheckArm { s with isProcessing := false }, ⟨0, 1, stops⟩)
      | .success _ =>
          let s := { s with isProcessing := false }
          if s.isListening then (startSafetyCheckArm s, ⟨1, 1, stops⟩)
          else (s, ⟨0, 0, stops⟩)
      | .throws =>
          let s := { s with isProcessing := false }
          if s.isListening then (startSafetyCheckArm s, ⟨1, 1, stops⟩)
          else (s, ⟨0, 0, stops⟩)

/-- The transcript-acceptance gate (claim C5): `isProcessing` as the
recognition handlers see it, and the number of transcripts accepted and not
yet done with their exit sequence. -/
structure RecognitionGate where
  isProcessing : Bool
  inFlight : Nat
deriving DecidableEq, Repr

/-- The events of the acceptance gate: a final transcript arrives with a
given trimmed length (recognition.onresult, src/unnamed/part_001 lines
200-211), or the exit sequence of the transcript being processed completes
(the `isProcessing = false` reset of processTranscript, lines 666, 686, 702,
715). -/
inductive RecognitionEvent where
  | finalResult (trimmedLen : Nat)
  | exitComplete
deriving DecidableEq, Repr

/-- One event step. onresult forwards a final transcript only when its
trimmed length exceeds 2 and isProcessing is false (line 205);
processTranscript re-checks isProcessing at entry (line 642) and sets it
before its first await, all within the same synchronous task, so acceptance
and the flag set are one atomic step. An exit resets the flag and retires
the in-flight run. -/
def recognitionStep (s : RecognitionGate) : RecognitionEvent → RecognitionGate
  | .finalResult trimmedLen =>
      if 2 < trimmedLen ∧ s.isProcessing = false then
        { isProcessing := true, inFlight := s.inFlight + 1 }
      else s
  | .exitComplete =>
      if s.inFlight = 0 then s
      else { isProcessing := false, inFlight := s.inFlight - 1 }

/-- The gate before anything was heard. -/
def recognitionInit : RecognitionGate := { isProcessing := false, inFlight := 0 }

/-- Run the gate over a sequence of events. -/
def recognitionRun (events : List RecognitionEvent) : RecognitionGate :=
  events.foldl recognitionStep recognitionInit

/-- The gate invariant: at most one transcript in flight, and the
isProcessing flag set exactly while one is. -/
def RecognitionGateInv (s : RecognitionGate) : Prop :=
  s.inFlight ≤ 1 ∧ s.isProcessing = decide (s.inFlight = 1)

/-- The acknowledgement queued before invoking the safe-spot callback
(src/unnamed/part_001 lines 588-593). -/
def lookingMsg : String := "Looking for the nearest safety spot and updating your route."

/-- The message queued when a safe-spot request arrives while one is already
in flight (lines 576-581). -/
def pleaseWaitMsg : String := "I'm already looking for a safety spot. Please wait."

/-- The follow-up queued when the safe-spot callback resolves (lines 601-606). -/
def spotSuccessMsg : String := "Route updated! I've added the nearest safety spot to your route."

/-- The follow-up queued when the safe-spot callback rejects (lines 610-615). -/
def spotFailureMsg : String :=
  "Sorry, I couldn't find a nearby safety spot right now. Please try again."

/-- The message queued when no safe-spot callback is registered (lines 624-629). -/
def noCallbackMsg : String :=
  "I understand you want to go to a safety spot, but I can't update your route right now."

/-- The safe-spot handling slice of VoiceAssistantService: the
isHandlingSafetySpot flag, how often the onNearestSafetySpotRequest callback
has been invoked, and the voice jobs queued so far (text and type, in queue
order). -/
structure SafeSpotState where
  isHandlingSafetySpot : Bool
  callbackInvocations : Nat
  queued : List (String × VoiceType)
deriving DecidableEq, Repr

/-- The safe-spot branch of handleSpecialCommands (src/unnamed/part_001 lines
569-634), entered once the transcript matched a safe-spot pattern. Returns
the state and the handled flag (the boolean handleSpecialCommands returns).
When isHandlingSafetySpot is already set: queue the please-wait message
(navigation) and report handled without touching the callback. Otherwise set
the flag, queue the looking acknowledgement (navigation) and, when a
callback is registered, invoke it (its settlement is the separate step
safetySpotCallbackSettled); with no callback, queue the apology
(conversation) and reset the flag. -/
def handleSafetySpotRequest (s : SafeSpotState) (hasCallback : Bool) :
    SafeSpotState × Bool :=
  if s.isHandlingSafetySpot then
    ({ s with queued := s.queued ++ [(pleaseWaitMsg, VoiceType.navigation)] }, true)
  else
    let s := { s with isHandlingSafetySpot := true,
                      queued := s.queued ++ [(lookingMsg, VoiceType.navigation)] }
    if hasCallback then
      ({ s with callbackInvocations := s.callbackInvocations + 1 }, true)
    else
      ({ s with queued := s.queued ++ [(noCallbackMsg, VoiceType.conversation)],
                isHandlingSafetySpot := false }, true)

/-- Settlement of the safe-spot callback promise (lines 597-621): the then
handler queues the success follow-up, the catch handler the failure
follow-up (both navigation), and the finally clause resets
isHandlingSafetySpot in either case. -/
def safetySpotCallbackSettled (s : SafeSpotState) (success : Bool) : SafeSpotState :=
  let msg := if success then spotSuccessMsg else spotFailureMsg
  { s with queued := s.queued ++ [(msg, VoiceType.navigation)], isHandlingSafetySpot := false }

/-- No safe-spot request in flight, nothing queued. -/
def safeSpotInit : SafeSpotState :=
  { isHandlingSafetySpot := false, callbackInvocations := 0, queued := [] }

/-- The claim C6 scenario: two safe-spot transcripts handled back to back,
with a callback registered, before the first callback settles. -/
def twoSafeSpotRequests : SafeSpotState :=
  (handleSafetySpotRequest (handleSafetySpotRequest safeSpotInit true).1 true).1

/-- The restart-logic slice of VoiceAssistantService state: the flags of the
guard in restartListening plus whether a recognition object exists and what
`this.voiceQueue.isSpeaking()` returns. -/
structure RestartState where
  isListening : Bool
  isProcessing : Bool
  isRecognitionActive : Bool
  hasRecognition : Bool
  speaking : Bool
deriving DecidableEq, Repr

/-- What `recognition.start()` did when called: returned, or threw an error
with the given message. -/
inductive StartAttempt where
  | ok
  | threw (msg : String)
deriving DecidableEq, Repr

/-- `pre` is a leading slice of `l` (character-list core of JavaScript
String.prototype.includes). -/
def charsLead : List Char → List Char → Bool
  | [], _ => true
  | _ :: _, [] => false
  | a :: pre, b :: l => a == b && charsLead pre l

/-- `needle` appears contiguously inside `l`. -/
def charsInside (needle : List Char) : List Char → Bool
  | [] => needle.isEmpty
  | b :: l => charsLead needle (b :: l) || charsInside needle l

/-- JavaScript `hay.includes(needle)` (restartListening checks
`errorMessage.includes("already started")`, src/unnamed/part_001 line 334). -/
def includesSub (hay needle : String) : Bool :=
  charsInside needle.toList hay.toList

/-- Result of one firing of the restartListening timer: the new state,
whether recognition.start() was called, and whether the 2-second retry
timeout was scheduled (the error backoff). -/
structure RestartResult where
  state : RestartState
  started : Bool
  retryScheduled : Bool
deriving DecidableEq, Repr

/-- The body of restartListening's timer (src/unnamed/part_001 lines
308-361): start() is attempted only when listening, a recognition object
exists, not processing, recognition not already active, and the voice queue
is not speaking — the guard and the call run in one synchronous block. In
the catch, an error whose message includes "already started" marks
recognition active and returns; any other error schedules the 2-second
retry. -/
def restartListeningFire (s : RestartState) (attempt : StartAttempt) : RestartResult :=
  if s.isListening && s.hasRecognition && !s.isProcessing
      && !s.isRecognitionActive && !s.speaking then
    match attempt with
    | .ok => ⟨s, true, false⟩
    | .threw msg =>
        if includesSub msg "already started" then
          ⟨{ s with isRecognitionActive := true }, true, false⟩
        else ⟨s, true, true⟩
  else ⟨s, false, false⟩

/-- smartRestart (src/unnamed/part_001 lines 871-882): when the queue is
speaking, wait for waitForSpeechToComplete — which resolves only once
isSpeaking() is false (lines 853-866) — and then, if still listening and not
processing, call restartListening; otherwise call restartListening at once.
The state at wait resolution is the firing state with speaking cleared. -/
def smartRestart (s : RestartState) (attempt : StartAttempt) : RestartResult :=
  if s.speaking then
    let s₂ := { s with speaking := false }
    if s₂.isListening && !s₂.isProcessing then restartListeningFire s₂ attempt
    else ⟨s₂, false, false⟩
  else restartListeningFire s attempt

/-- A state in which the restart guard passes. -/
def restartReady : RestartState :=
  { isListening := true, isProcessing := false, isRecognitionActive := false,
    hasRecognition := true, speaking := false }

/-- The route type of ConversationContext.routeDetails
(src/unnamed/part_001 line 24). -/
inductive RouteType where
  | safest
  | fastest
deriving DecidableEq, Repr

/-- routeDetails of ConversationContext (src/unnamed/part_001 lines 19-25). -/
structure RouteDetails where
  distance : Nat
  estimatedTime : Nat
  dangerZones : Nat
  safeSpots : Nat
  routeType : RouteType
deriving DecidableEq, Repr

/-- walkingState of ConversationContext (src/unnamed/part_001 line 18). -/
inductive WalkingState where
  | planning
  | walking
  | arrived
deriving DecidableEq, Repr

/-- A trusted contact (src/unnamed/part_001 lines 26-32). -/
structure TrustedContact where
  name : String
  phone : String
  email : Option String
  relationship : Option String
  isPrimary : Option Bool
deriving DecidableEq, Repr

/-- ConversationContext (src/unnamed/part_001 lines 13-33); every field is
optional in the source interface. -/
structure ConversationContext where
  currentLocation : Option String := none
  destination : Option String := none
  routeStatus : Option String := none
  safetyScore : Option Int := none
  walkingState : Option WalkingState := none
  routeDetails : Option RouteDetails := none
  trustedContacts : Option (List TrustedContact) := none
deriving DecidableEq, Repr

/-- The fixed pool of five generic check-in messages
(src/unnamed/part_001 lines 484-490). -/
def safetyCheckMessages : List String :=
  [ "Hey, are you safe?",
    "Just checking in - how are you doing?",
    "Everything okay? I haven't heard from you in a while.",
    "Quick safety check - are you alright?",
    "Hey there, just making sure you're doing well." ]

/-- The low-safety-score warning (line 494). -/
def lowScoreMsg : String := "Hey, are you safe? You're in an area with lower safety scores."

/-- The danger-zone warning (line 501). -/
def dangerZoneMsg : String :=
  "Hey, are you safe? I noticed there are some areas requiring extra attention on your route."

/-- The first guard of generateSafetyCheckMessage (line 493):
`this.context.safetyScore && this.context.safetyScore < 60`. A JavaScript
number is truthy unless it is 0 (or NaN), so a safetyScore of 0 fails the
conjunction. -/
def scoreTruthyBelow60 : Option Int → Bool
  | some score => !(score == 0) && decide (score < 60)
  | none => false

/-- The second guard (lines 497-500):
`this.context.routeDetails && this.context.routeDetails.dangerZones > 0`
(an object is always truthy). -/
def dangerZonesPositive : Option RouteDetails → Bool
  | some rd => decide (0 < rd.dangerZones)
  | none => false

/-- generateSafetyCheckMessage (src/unnamed/part_001 lines 483-506,
identical in part_000 lines 473-496): the low-score warning when the score
guard passes, else the danger-zone warning when the route has danger zones,
else `messages[Math.floor(Math.random() * messages.length)]`; the random
draw is embedded as the index `rand % 5` into the pool of five. -/
def generateSafetyCheckMessage (ctx : ConversationContext) (rand : Nat) : String :=
  if scoreTruthyBelow60 ctx.safetyScore then lowScoreMsg
  else if dangerZonesPositive ctx.routeDetails then dangerZoneMsg
  else safetyCheckMessages.getD (rand % 5) ""

/-- A context sitting at safety score 0 with a route that has no danger
zones: the claim C9 counterexample input. -/
def zeroScoreContext : ConversationContext :=
  { safetyScore := some 0,
    routeDetails := some { distance := 1200, estimatedTime := 15, dangerZones := 0,
                           safeSpots := 2, routeType := RouteType.safest } }

/-- The voice-command callbacks of VoiceAssistantService (src/unnamed/part_001
lines 35-38), each an optional handler embedded as an abstract handle. -/
structure VoiceCommandCallbacks where
  onNearestSafetySpotRequest : Option Nat
  onEmergencyAlertRequest : Option Nat
deriving DecidableEq, Repr

/-- setCallbacks (src/unnamed/part_001 lines 894-896): replace the whole
callbacks record with the argument. -/
def setCallbacks (_cur arg : VoiceCommandCallbacks) : VoiceCommandCallbacks := arg

/-- updateCallbacks (src/unnamed/part_001 lines 957-963): when the argument
carries onNearestSafetySpotRequest, store it; nothing else is assigned — in
particular onEmergencyAlertRequest is never written. -/
def updateCallbacks (cur arg : VoiceCommandCallbacks) : VoiceCommandCallbacks :=
  if arg.onNearestSafetySpotRequest.isSome then
    { cur with onNearestSafetySpotRequest := arg.onNearestSafetySpotRequest }
  else cur

/-- An assistant ready to accept a transcript: not processing, listening,
recognition running, safety timer armed. -/
def preTranscriptState : AssistantState :=
  { isProcessing := false, isListening := true,
    isRecognitionActive := true, safetyTimerArmed := true }

/-- A context whose safety score is 45 (the spec's scenario B). -/
def lowScoreContext : ConversationContext := { safetyScore := some 45 }

/-- The message Chrome-style engines raise when start() is called on a
running recognition. -/
def alreadyStartedMsg : String :=
  "Failed to execute start on SpeechRecognition: recognition has already started."

/-- Claim C2 counterexample: on an idle queue the first queueVoice call
synchronously dequeues and starts its own job before the other two are
enqueued, so the drain plays [conversation, safety-check, navigation], not
the claimed [safety-check, navigation, conversation]. -/
theorem claim2_counterexample :
    playOrder (enqueueThreeThenDrain idleVoiceQueue)
      = [VoiceType.conversation, VoiceType.safetyCheck, VoiceType.navigation] ∧
    [VoiceType.conversation, VoiceType.safetyCheck, VoiceType.navigation] ≠
      [VoiceType.safetyCheck, VoiceType.navigation, VoiceType.conversation] := by
  exact ⟨rfl, by decide⟩

/-- C2 (amended): enqueueing [conversation, safety-check, navigation] on an
idle VoiceQueueService plays them in the order [conversation, safety-check,
navigation], because the first enqueue starts the drain synchronously; the
priority order [safety-check, navigation, conversation] is the drain order
when the three jobs are enqueued while the drain is already busy with an
earlier job. -/
theorem claim2_queue_order :
    playOrder (enqueueThreeThenDrain idleVoiceQueue)
      = [VoiceType.conversation, VoiceType.safetyCheck, VoiceType.navigation] ∧
    playOrder (enqueueThreeThenDrain busyVoiceQueue)
      = [VoiceType.safetyCheck, VoiceType.navigation, VoiceType.conversation] := by
  exact ⟨rfl, rfl⟩

/-- Claim C3 counterexample: with jobs 1, 2, 3 pending and job 0 playing,
clearQueue rejects the pending jobs and stops the audio, but job 0's promise
stays pending — it is not rejected with the queue-cleared error as the claim
states. -/
theorem claim3_counterexample :
    (clearQueue clearScenario).settle 1 = JobOutcome.rejected queueClearedMsg ∧
    (clearQueue clearScenario).audioPlaying = false ∧
    (clearQueue clearScenario).settle 0 = JobOutcome.pending ∧
    JobOutcome.pending ≠ JobOutcome.rejected queueClearedMsg := by
  refine ⟨by decide, rfl, by decide, by decide⟩

/-- C3 (amended): clearQueue rejects every job still in the queue with the
queue-cleared error, empties the queue and stops the playing audio; the
settlement of every job no longer in the queue — in particular the one the
drain loop is playing — is left untouched (pausing the audio fires neither
`ended` nor `error`, so its promise never settles from this call). -/
theorem claim3_flush_semantics (s : VoiceQueuePromises) :
    (∀ i ∈ s.pendingIds, (clearQueue s).settle i = JobOutcome.rejected queueClearedMsg) ∧
    (clearQueue s).audioPlaying = false ∧
    (clearQueue s).pendingIds = [] ∧
    (∀ j, j ∉ s.pendingIds → (clearQueue s).settle j = s.settle j) := by
  refine ⟨fun i hi => ?_, rfl, rfl, fun j hj => ?_⟩
  · simp [clearQueue, stopCurrentAudio, hi]
  · simp [clearQueue, stopCurrentAudio, hj]

/-- C3 witness: at the concrete scenario, pending job 2 is rejected and the
untouched job 5 (never queued) keeps its settlement. -/
theorem claim3_witness :
    (clearQueue clearScenario).settle 2 = JobOutcome.rejected queueClearedMsg ∧
    (clearQueue clearScenario).settle 5 = JobOutcome.pending := by
  refine ⟨(claim3_flush_semantics clearScenario).1 2 (by decide), ?_⟩
  have h := (claim3_flush_semantics clearScenario).2.2.2 5 (by decide)
  simpa [clearScenario] using h

/-- C10: updateCallbacks can only replace the nearest-safe-spot callback —
the stored emergency-alert callback is unchanged for every argument, so the
emergency callback is only ever set through setCallbacks, which replaces the
whole record. -/
theorem claim10_update_preserves_emergency (cur arg : VoiceCommandCallbacks) :
    (updateCallbacks cur arg).onEmergencyAlertRequest = cur.onEmergencyAlertRequest ∧
    setCallbacks cur arg = arg := by
  unfold updateCallbacks setCallbacks
  constructor
  · split <;> rfl
  · rfl

/-- Claim C4 counterexample: the part_001 revision enqueues a safety-check
job even though the voice queue is speaking when the timer fires (the claim
says no job is enqueued then), and the part_000 revision, firing while
processing, enqueues nothing but also leaves the timer unarmed (the claim
says it is re-armed, deferred not dropped). -/
theorem claim4_counterexample :
    (performSafetyCheckP1 firesWhileSpeaking 10000).enqueuedSafetyCheck = true ∧
    (performSafetyCheckP0 firesWhileProcessing 10000).enqueuedSafetyCheck = false ∧
    (performSafetyCheckP0 firesWhileProcessing 10000).state.timerArmed = false := by
  decide

/-- C4 (amended): in the part_000 revision, a timer firing while audio plays
and no processing is underway enqueues nothing and re-arms the timer for a
full interval; firing while processing is underway also enqueues nothing,
but the re-arm is suppressed (startSafetyCheck returns early while
isProcessing), so the timer is dropped. In the part_001 revision the
speaking/processing guard is removed: while listening, once the idle
interval has elapsed a safety-check job is enqueued regardless of speaking
or processing. -/
theorem claim4_safety_check_deferral (s : SafetySchedulerState) (now : Nat) :
    (s.speaking = true → s.isProcessing = false → s.isListening = true →
      (performSafetyCheckP0 s now).enqueuedSafetyCheck = false ∧
      (performSafetyCheckP0 s now).state.timerArmed = true) ∧
    (s.isProcessing = true →
      (performSafetyCheckP0 s now).enqueuedSafetyCheck = false ∧
      (performSafetyCheckP0 s now).state.timerArmed = false) ∧
    (s.isListening = true → SAFETY_CHECK_INTERVAL ≤ now - s.lastActivityTime →
      (performSafetyCheckP1 s now).enqueuedSafetyCheck = true) := by
  obtain ⟨l, p, sp, t, la⟩ := s
  refine ⟨?_, ?_, ?_⟩
  · intro h1 h2 h3
    simp only at h1 h2 h3
    subst h1 h2 h3
    simp [performSafetyCheckP0, startSafetyCheckP0]
  · intro h1
    simp only at h1
    subst h1
    simp [performSafetyCheckP0, startSafetyCheckP0]
  · intro h1 h2
    simp only at h1 h2
    subst h1
    simp [performSafetyCheckP1, h2]

/-- C4 witness: the amended statement evaluated at the two firing states. -/
theorem claim4_witness :
    (performSafetyCheckP0 firesWhileSpeaking 10000).enqueuedSafetyCheck = false ∧
    (performSafetyCheckP0 firesWhileSpeaking 10000).state.timerArmed = true ∧
    (performSafetyCheckP0 firesWhileProcessing 10000).state.timerArmed = false ∧
    (performSafetyCheckP1 firesWhileSpeaking 10000).enqueuedSafetyCheck = true := by
  refine ⟨((claim4_safety_check_deferral firesWhileSpeaking 10000).1 rfl rfl rfl).1,
    ((claim4_safety_check_deferral firesWhileSpeaking 10000).1 rfl rfl rfl).2,
    ((claim4_safety_check_deferral firesWhileProcessing 10000).2.1 rfl).2,
    (claim4_safety_check_deferral firesWhileSpeaking 10000).2.2 rfl (by decide)⟩

/-- Claim C1 counterexample: in the branch where the Gemini response is
null, processTranscript resets isProcessing but attempts no recognition
restart — restartListening is called zero times, not exactly once. -/
theorem claim1_counterexample :
    (processTranscript preTranscriptState false GeminiOutcome.nullResponse).2.restartCalls
      = 0 ∧
    (processTranscript preTranscriptState false GeminiOutcome.nullResponse).1.isProcessing
      = false ∧
    (0 : Nat) ≠ 1 := by
  decide

/-- C1 (amended): for a transcript accepted while listening, the
command-handled, LLM-success and LLM-throws branches all end with
isProcessing = false and exactly one restartListening attempt; the LLM-null
branch also ends with isProcessing = false and re-arms the safety-check
timer, but makes no restart attempt. -/
theorem claim1_exit_paths (s : AssistantState) (resp : String)
    (hp : s.isProcessing = false) (hl : s.isListening = true) :
    (∀ g, (processTranscript s true g).1.isProcessing = false ∧
          (processTranscript s true g).2.restartCalls = 1) ∧
    ((processTranscript s false (GeminiOutcome.success resp)).1.isProcessing = false ∧
     (processTranscript s false (GeminiOutcome.success resp)).2.restartCalls = 1) ∧
    ((processTranscript s false GeminiOutcome.throws).1.isProcessing = false ∧
     (processTranscript s false GeminiOutcome.throws).2.restartCalls = 1) ∧
    ((processTranscript s false GeminiOutcome.nullResponse).1.isProcessing = false ∧
     (processTranscript s false GeminiOutcome.nullResponse).2.restartCalls = 0 ∧
     (processTranscript s false GeminiOutcome.nullResponse).1.safetyTimerArmed = true) := by
  obtain ⟨p, l, a, t⟩ := s
  simp only at hp hl
  subst hp hl
  refine ⟨fun g => ?_, ?_, ?_, ?_⟩ <;>
    simp [processTranscript, startSafetyCheckArm]

/-- C1 witness: the amended statement evaluated at the ready state. -/
theorem claim1_witness :
    (processTranscript preTranscriptState false GeminiOutcome.throws).2.restartCalls = 1 ∧
    (processTranscript preTranscriptState true GeminiOutcome.nullResponse).2.restartCalls
      = 1 ∧
    (processTranscript preTranscriptState false GeminiOutcome.nullResponse).2.restartCalls
      = 0 := by
  refine ⟨(claim1_exit_paths preTranscriptState "ok" rfl rfl).2.2.1.2,
    ((claim1_exit_paths preTranscriptState "ok" rfl rfl).1 GeminiOutcome.nullResponse).2,
    (claim1_exit_paths preTranscriptState "ok" rfl rfl).2.2.2.2.1⟩

/-- One acceptance-gate step keeps the invariant: a final transcript is
accepted only when isProcessing is false, so at most one run is ever in
flight. -/
theorem recognitionStep_inv {s : RecognitionGate} (h : RecognitionGateInv s)
    (e : RecognitionEvent) : RecognitionGateInv (recognitionStep s e) := by
  obtain ⟨h1, h2⟩ := h
  cases e with
  | finalResult n =>
      simp only [recognitionStep]
      by_cases hc : 2 < n ∧ s.isProcessing = false
      · rw [if_pos hc]
        have hk : s.inFlight = 0 := by
          rcases hc with ⟨-, hip⟩
          rw [hip] at h2
          have := of_decide_eq_false h2.symm
          omega
        simp [RecognitionGateInv, hk]
      · rw [if_neg hc]; exact ⟨h1, h2⟩
  | exitComplete =>
      simp only [recognitionStep]
      by_cases hk : s.inFlight = 0
      · rw [if_pos hk]; exact ⟨h1, h2⟩
      · rw [if_neg hk]
        have h3 : s.inFlight = 1 := by omega
        simp [RecognitionGateInv, h3]

/-- The invariant holds after folding any event list from an invariant
state. -/
theorem recognitionRun_inv (events : List RecognitionEvent) :
    ∀ s : RecognitionGate, RecognitionGateInv s →
      RecognitionGateInv (events.foldl recognitionStep s) := by
  induction events with
  | nil => intro s h; simpa using h
  | cons e rest ih =>
      intro s h
      simpa using ih (recognitionStep s e) (recognitionStep_inv h e)

/-- C5: over every sequence of final-transcript and exit events, the
acceptance gate keeps at most one transcript in flight — a final transcript
arriving while isProcessing is true is dropped, so no reachable state has
two transcripts being processed concurrently — and isProcessing is set
exactly while a transcript is in flight. -/
theorem claim5_no_concurrent_processing (events : List RecognitionEvent) :
    (recognitionRun events).inFlight ≤ 1 ∧
    (recognitionRun events).isProcessing
      = decide ((recognitionRun events).inFlight = 1) := by
  have h := recognitionRun_inv events recognitionInit (by simp [RecognitionGateInv, recognitionInit])
  exact h

/-- C6: two safe-spot transcripts handled before the first callback settles
invoke the callback exactly once — both are reported handled, the first
queues the looking acknowledgement and the second only the please-wait
message — and whichever way the callback settles, the follow-up message
(success or failure) is queued and isHandlingSafetySpot is reset. -/
theorem claim6_safe_spot_dedup :
    (handleSafetySpotRequest safeSpotInit true).2 = true ∧
    (handleSafetySpotRequest (handleSafetySpotRequest safeSpotInit true).1 true).2 = true ∧
    twoSafeSpotRequests.callbackInvocations = 1 ∧
    twoSafeSpotRequests.queued
      = [(lookingMsg, VoiceType.navigation), (pleaseWaitMsg, VoiceType.navigation)] ∧
    (safetySpotCallbackSettled twoSafeSpotRequests true).isHandlingSafetySpot = false ∧
    (safetySpotCallbackSettled twoSafeSpotRequests true).queued
      = [(lookingMsg, VoiceType.navigation), (pleaseWaitMsg, VoiceType.navigation),
         (spotSuccessMsg, VoiceType.navigation)] ∧
    (safetySpotCallbackSettled twoSafeSpotRequests false).isHandlingSafetySpot = false ∧
    (safetySpotCallbackSettled twoSafeSpotRequests false).queued
      = [(lookingMsg, VoiceType.navigation), (pleaseWaitMsg, VoiceType.navigation),
         (spotFailureMsg, VoiceType.navigation)] := by
  refine ⟨rfl, rfl, rfl, rfl, rfl, rfl, rfl, rfl⟩

/-- restartListeningFire never changes what the voice queue reports. -/
theorem restartListeningFire_speaking (s : RestartState) (a : StartAttempt) :
    (restartListeningFire s a).state.speaking = s.speaking := by
  unfold restartListeningFire
  split
  · cases a with
    | ok => rfl
    | threw msg => dsimp only; split <;> rfl
  · rfl

/-- smartRestart always lands in a state where the queue is not speaking:
either it fired with speaking already false, or it waited for speech to
complete first. -/
theorem smartRestart_speaking (s : RestartState) (a : StartAttempt) :
    (smartRestart s a).state.speaking = false := by
  unfold smartRestart
  split
  · dsimp only
    split
    · simp [restartListeningFire_speaking]
    · rfl
  · next h =>
      rw [restartListeningFire_speaking]
      simp only [Bool.not_eq_true] at h
      exact h

/-- C7: the restart logic never calls recognition.start() while the voice
queue is speaking — a start only happens when the restartListening guard saw
isSpeaking() false (together with listening, not processing and recognition
inactive), and the end-of-recognition smartRestart path only reaches a start
in a state where speaking is false, having waited for speech to complete. -/
theorem claim7_no_start_while_speaking (s : RestartState) (a : StartAttempt) :
    ((restartListeningFire s a).started = true →
      s.speaking = false ∧ s.isProcessing = false ∧ s.isRecognitionActive = false ∧
      s.isListening = true ∧ s.hasRecognition = true) ∧
    ((smartRestart s a).started = true → (smartRestart s a).state.speaking = false) := by
  constructor
  · intro h
    unfold restartListeningFire at h
    by_cases hg : (s.isListening && s.hasRecognition && !s.isProcessing
        && !s.isRecognitionActive && !s.speaking) = true
    · simp only [Bool.and_eq_true, Bool.not_eq_true'] at hg
      exact ⟨hg.2, hg.1.1.2, hg.1.2, hg.1.1.1.1, hg.1.1.1.2⟩
    · rw [if_neg hg] at h
      exact absurd h (by simp)
  · intro _
    exact smartRestart_speaking s a

/-- C7 witness: a state in which a start actually happens satisfies the
guard facts. -/
theorem claim7_witness :
    restartReady.speaking = false ∧ restartReady.isProcessing = false ∧
    restartReady.isRecognitionActive = false ∧ restartReady.isListening = true ∧
    restartReady.hasRecognition = true :=
  (claim7_no_start_while_speaking restartReady StartAttempt.ok).1 rfl

/-- C8: when the restart guard passed and recognition.start() threw an error
whose message includes "already started", restartListening marks recognition
active and returns — no retry is scheduled and no error backoff entered. -/
theorem claim8_already_started (s : RestartState) (msg : String)
    (hl : s.isListening = true) (hr : s.hasRecognition = true)
    (hp : s.isProcessing = false) (ha : s.isRecognitionActive = false)
    (hs : s.speaking = false)
    (hm : includesSub msg "already started" = true) :
    restartListeningFire s (StartAttempt.threw msg)
      = ⟨{ s with isRecognitionActive := true }, true, false⟩ := by
  unfold restartListeningFire
  rw [if_pos (by simp [hl, hr, hp, ha, hs])]
  simp [hm]

/-- C8 witness: the Chrome-style "already started" message at the ready
state. -/
theorem claim8_witness :
    restartListeningFire restartReady (StartAttempt.threw alreadyStartedMsg)
      = ⟨{ restartReady with isRecognitionActive := true }, true, false⟩ :=
  claim8_already_started restartReady alreadyStartedMsg rfl rfl rfl rfl rfl (by decide)

/-- Claim C9 counterexample: at safety score 0 — which is below 60 — the
score guard `safetyScore && safetyScore < 60` is falsy (JavaScript treats 0
as falsy), so with no danger zones the function returns a generic pool
message instead of the claimed context-specific warning. -/
theorem claim9_counterexample :
    generateSafetyCheckMessage zeroScoreContext 0 = "Hey, are you safe?" ∧
    generateSafetyCheckMessage zeroScoreContext 0 ≠ lowScoreMsg ∧
    generateSafetyCheckMessage zeroScoreContext 0 ≠ dangerZoneMsg ∧
    ((0 : Int) < 60) := by
  refine ⟨rfl, by decide, by decide, by decide⟩

/-- C9 (amended): the low-score warning is returned whenever safetyScore is
present, nonzero and below 60 (score 0 is falsy and skips the guard); when
that guard fails, the danger-zone warning is returned whenever routeDetails
reports more than zero danger zones; otherwise the result is one of the
fixed pool of five generic check-in strings. -/
theorem claim9_message_selection (ctx : ConversationContext) (rand : Nat) :
    (∀ sc : Int, ctx.safetyScore = some sc → sc ≠ 0 → sc < 60 →
      generateSafetyCheckMessage ctx rand = lowScoreMsg) ∧
    (∀ rd : RouteDetails, ctx.routeDetails = some rd → 0 < rd.dangerZones →
      scoreTruthyBelow60 ctx.safetyScore = false →
      generateSafetyCheckMessage ctx rand = dangerZoneMsg) ∧
    (scoreTruthyBelow60 ctx.safetyScore = false →
      dangerZonesPositive ctx.routeDetails = false →
      generateSafetyCheckMessage ctx rand ∈ safetyCheckMessages) := by
  refine ⟨?_, ?_, ?_⟩
  · intro sc hsc hne hlt
    have hg : scoreTruthyBelow60 ctx.safetyScore = true := by
      simp [scoreTruthyBelow60, hsc, hne, hlt]
    simp [generateSafetyCheckMessage, hg]
  · intro rd hrd hdz hg
    have hd : dangerZonesPositive ctx.routeDetails = true := by
      simp [dangerZonesPositive, hrd, hdz]
    simp [generateSafetyCheckMessage, hg, hd]
  · intro hg hd
    have h5 : rand % 5 < 5 := Nat.mod_lt _ (by norm_num)
    simp only [generateSafetyCheckMessage, hg, hd, Bool.false_eq_true, if_false]
    interval_cases h : rand % 5 <;> simp [safetyCheckMessages]

/-- C9 witness: score 45 yields the low-score warning; score 0 with a
clean route yields a pool message. -/
theorem claim9_witness :
    generateSafetyCheckMessage lowScoreContext 0 = lowScoreMsg ∧
    generateSafetyCheckMessage zeroScoreContext 3 ∈ safetyCheckMessages := by
  exact ⟨(claim9_message_selection lowScoreContext 0).1 45 rfl (by decide) (by decide),
    (claim9_message_selection zeroScoreContext 3).2.2 (by decide) (by decide)⟩
